import Mathlib

/-!
Verification of the ride-hailing socket server.

The main model (`RideProcess`) is a shallow embedding of the in-memory
socket.io backend in `ride-process.10.10.2.ts`: the module-level maps
`rides`, `drivers`, `rideTimers`, `updateThrottle` and the `rideLocks` set
become a `ServerState` record, and each socket event handler becomes a
function `ServerState → ... → Result × ServerState`.  The pending-request
timeout callback is modelled as an explicit `timerFire` operation that can
only occur while the timer is still armed.

A second model (`ReconnectV2`) embeds the Redis-hash based variant
(`src/unnamed/part_001`): the per-ride Redis hash becomes a `RideHash`
record and the `user:reconnect` replay logic becomes `replayEvents`.
-/

namespace RideProcess

inductive RideStatus
  | requested
  | accepted
  | driverArrived
  | inProgress
  | completed
  | cancelled
  deriving DecidableEq, Repr

inductive DestStatus
  | pending
  | completed
  deriving DecidableEq, Repr

/-- `Location` from the source (`lat`/`lng`; the optional `address` field is
never read by any handler and is omitted). Coordinates are modelled as `Int`. -/
structure Location where
  lat : Int
  lng : Int
  deriving DecidableEq, Repr

/-- `Destination extends Location { status?: "pending" | "completed" }`. -/
structure Destination where
  lat : Int
  lng : Int
  status : Option DestStatus
  deriving DecidableEq, Repr

/-- The `Ride` interface.  Optional fields of the TypeScript interface are
`Option`s. -/
structure Ride where
  rideId : String
  userId : String
  driverId : Option String
  status : Option RideStatus
  driverLocation : Option Location
  pickupLocation : Option Location
  destinations : Option (List Destination)
  currentIndex : Option Nat
  createdAt : Option Nat
  deriving DecidableEq, Repr

/-- The `Driver` interface. -/
structure Driver where
  driverId : String
  socketId : String
  online : Bool
  deriving DecidableEq, Repr

/-- The raw client payload of a `rideRequested` event.  `validateRidePayload`
only checks that `rideId` and `userId` are present strings, so every other
field is free client input, including `driverId` and `status`. -/
structure RidePayload where
  rideId : Option String
  userId : Option String
  driverId : Option String
  status : Option RideStatus
  driverLocation : Option Location
  pickupLocation : Option Location
  destinations : Option (List Destination)
  currentIndex : Option Nat
  createdAt : Option Nat
  deriving DecidableEq, Repr

/-- The module-level mutable state of the server:
`rides`, `drivers`, `rideTimers`, `updateThrottle` records and the
`rideLocks` set.  Records keyed by id are association lists keyed by the
id stored in the value (resp. the pair's first component). -/
structure ServerState where
  rides : List Ride
  drivers : List Driver
  rideTimers : List String
  rideLocks : List String
  updateThrottle : List (String × Nat)
  deriving DecidableEq, Repr

def initState : ServerState :=
  { rides := [], drivers := [], rideTimers := [], rideLocks := [], updateThrottle := [] }

/-- `rides[rideId]` read. -/
def getRide (st : ServerState) (rid : String) : Option Ride :=
  st.rides.find? (fun r => r.rideId == rid)

/-- `rides[ride.rideId] = ride`: keyed write, replacing the entry with the
same `rideId` or inserting a fresh one. -/
def setRide : List Ride → Ride → List Ride
  | [], r => [r]
  | x :: xs, r => if x.rideId == r.rideId then r :: xs else x :: setRide xs r

/-- In-place mutation of the ride found under key `rid`
(e.g. `ride.status = "accepted"` after `const ride = rides[rideId]`). -/
def updateRide (rs : List Ride) (rid : String) (f : Ride → Ride) : List Ride :=
  rs.map (fun x => if x.rideId == rid then f x else x)

/-- `drivers[driverId] = {...}`: keyed write. -/
def setDriver : List Driver → Driver → List Driver
  | [], d => [d]
  | x :: xs, d => if x.driverId == d.driverId then d :: xs else x :: setDriver xs d

/-- `updateThrottle[rideId] = now`: keyed write. -/
def setThrottle : List (String × Nat) → String → Nat → List (String × Nat)
  | [], rid, now => [(rid, now)]
  | x :: xs, rid, now => if x.1 == rid then (rid, now) :: xs else x :: setThrottle xs rid now

/-- `["accepted", "driverArrived", "inProgress"].includes(r.status!)`. -/
def activeStatus (r : Ride) : Bool :=
  r.status == some RideStatus.accepted
    || r.status == some RideStatus.driverArrived
    || r.status == some RideStatus.inProgress

/-- `Object.values(rides).some(r => r.driverId === d.driverId && [...].includes(r.status!))`. -/
def hasActiveRide (rs : List Ride) (d : String) : Bool :=
  rs.any (fun r => r.driverId == some d && activeStatus r)

/-- Candidate selection in the `rideRequested` handler: online drivers with no
active ride, first 3. -/
def candidateDrivers (st : ServerState) : List Driver :=
  (st.drivers.filter (fun d => d.online && !hasActiveRide st.rides d.driverId)).take 3

/-- `validateRidePayload`: `typeof ride.rideId === "string" && typeof ride.userId === "string"`. -/
def validateRidePayload (p : RidePayload) : Bool :=
  p.rideId.isSome && p.userId.isSome

/-- The mutations the `rideRequested` handler applies to the payload object
before storing it: `status = "requested"`, `createdAt = now`, and — only when
`destinations` is an array — truncation to 4 entries, forcing each
destination's sub-status to `pending`, and `currentIndex = 0`. -/
def buildRide (p : RidePayload) (rid uid : String) (now : Nat) : Ride :=
  match p.destinations with
  | some ds =>
      { rideId := rid, userId := uid, driverId := p.driverId,
        status := some RideStatus.requested,
        driverLocation := p.driverLocation, pickupLocation := p.pickupLocation,
        destinations := some ((ds.take 4).map (fun d => { d with status := some DestStatus.pending })),
        currentIndex := some 0, createdAt := some now }
  | none =>
      { rideId := rid, userId := uid, driverId := p.driverId,
        status := some RideStatus.requested,
        driverLocation := p.driverLocation, pickupLocation := p.pickupLocation,
        destinations := none,
        currentIndex := p.currentIndex, createdAt := some now }

/-- Success/failure outcome passed to the acknowledgement callback.  Failure
carries the `error` string of the source. -/
inductive Result
  | success
  | failure (msg : String)
  deriving DecidableEq, Repr

/-- The `rideRequested` handler: validate, overwrite `rides[rideId]`, pick
candidates, arm the timeout if some candidate was notified and no timer for
this ride is pending. -/
def rideRequested (st : ServerState) (p : RidePayload) (now : Nat) : Result × ServerState :=
  match p.rideId, p.userId with
  | some rid, some uid =>
      let ride := buildRide p rid uid now
      let st' : ServerState := { st with rides := setRide st.rides ride }
      let cands := candidateDrivers st'
      let timers :=
        if cands.length > 0 && !(st'.rideTimers.contains rid) then
          rid :: st'.rideTimers
        else st'.rideTimers
      (Result.success, { st' with rideTimers := timers })
  | _, _ => (Result.failure "Invalid ride payload", st)

/-- The `acceptRide` handler: `acquireRideLock`, re-check `status === "requested"`,
then set `status`/`driverId`/`driverLocation` and `finalizeRide` (clear the
timer and release the lock). -/
def acceptRide (st : ServerState) (rid driverId : String) (loc : Option Location) :
    Result × ServerState :=
  if st.rideLocks.contains rid then
    (Result.failure "Ride already being processed", st)
  else
    let stL : ServerState := { st with rideLocks := rid :: st.rideLocks }
    match getRide stL rid with
    | none =>
        (Result.failure "Ride not available", { stL with rideLocks := stL.rideLocks.erase rid })
    | some r =>
        if r.status == some RideStatus.requested then
          (Result.success,
            { stL with rides := (updateRide stL.rides rid (fun x =>
                         { x with status := some RideStatus.accepted, driverId := some driverId,
                                  driverLocation := match loc with
                                    | some l => some { lat := l.lat, lng := l.lng }
                                    | none => x.driverLocation })),
                       rideTimers := stL.rideTimers.erase rid,
                       rideLocks := stL.rideLocks.erase rid })
        else
          (Result.failure "Ride not available", { stL with rideLocks := stL.rideLocks.erase rid })

/-- The `driverArrived` handler: guarded by `status === "accepted"`. -/
def driverArrived (st : ServerState) (rid : String) : Result × ServerState :=
  match getRide st rid with
  | some r =>
      if r.status == some RideStatus.accepted then
        (Result.success,
          { st with rides := (updateRide st.rides rid
              (fun x => { x with status := some RideStatus.driverArrived })) })
      else (Result.failure "Invalid ride state", st)
  | none => (Result.failure "Invalid ride state", st)

/-- The `startRide` handler: guarded by `status === "driverArrived"`. -/
def startRide (st : ServerState) (rid : String) : Result × ServerState :=
  match getRide st rid with
  | some r =>
      if r.status == some RideStatus.driverArrived then
        (Result.success,
          { st with rides := (updateRide st.rides rid
              (fun x => { x with status := some RideStatus.inProgress })) })
      else (Result.failure "Invalid ride state", st)
  | none => (Result.failure "Invalid ride state", st)

/-- `ride.destinations[idx].status = "completed"`. -/
def markDest : List Destination → Nat → List Destination
  | [], _ => []
  | d :: ds, 0 => { d with status := some DestStatus.completed } :: ds
  | d :: ds, n + 1 => d :: markDest ds n

/-- The `completeDestination` handler: guarded by `status === "inProgress"`,
then by `destinations` being present with `idx = currentIndex ?? 0` in range;
marks the current destination completed and either advances `currentIndex`
or completes the ride on the last destination. -/
def completeDestination (st : ServerState) (rid : String) : Result × ServerState :=
  match getRide st rid with
  | some r =>
      if r.status == some RideStatus.inProgress then
        let idx := r.currentIndex.getD 0
        match r.destinations with
        | none => (Result.failure "No destinations available", st)
        | some ds =>
            if idx ≥ ds.length then
              (Result.failure "No destinations available", st)
            else if idx < ds.length - 1 then
              (Result.success,
                { st with rides := (updateRide st.rides rid (fun x =>
                    { x with destinations := some (markDest ds idx),
                             currentIndex := some (idx + 1) })) })
            else
              (Result.success,
                { st with rides := (updateRide st.rides rid (fun x =>
                    { x with destinations := some (markDest ds idx),
                             status := some RideStatus.completed })) })
      else (Result.failure "Invalid ride state", st)
  | none => (Result.failure "Invalid ride state", st)

/-- The `cancelRide` handler: rejected only when the ride is missing or its
status is `completed`; otherwise sets `cancelled` and runs `finalizeRide`
(clearing the pending timer and the lock). -/
def cancelRide (st : ServerState) (rid : String) : Result × ServerState :=
  match getRide st rid with
  | some r =>
      if r.status == some RideStatus.completed then
        (Result.failure "Ride not found or already completed", st)
      else
        (Result.success,
          { st with rides := (updateRide st.rides rid
                      (fun x => { x with status := some RideStatus.cancelled })),
                    rideTimers := st.rideTimers.erase rid,
                    rideLocks := st.rideLocks.erase rid })
  | none => (Result.failure "Ride not found or already completed", st)

/-- The `updateLocation` handler: throttled to one update per 500 ms per ride;
overwrites `driverLocation` only. -/
def updateLocation (st : ServerState) (rid : String) (lat lng : Int) (now : Nat) :
    Result × ServerState :=
  match getRide st rid with
  | none => (Result.failure "Ride not found", st)
  | some _ =>
      match st.updateThrottle.find? (fun x => x.1 == rid) with
      | some x =>
          if now - x.2 < 500 then (Result.failure "Throttled", st)
          else
            (Result.success,
              { st with updateThrottle := setThrottle st.updateThrottle rid now,
                        rides := (updateRide st.rides rid
                          (fun r => { r with driverLocation := some { lat := lat, lng := lng } })) })
      | none =>
          (Result.success,
            { st with updateThrottle := setThrottle st.updateThrottle rid now,
                      rides := (updateRide st.rides rid
                        (fun r => { r with driverLocation := some { lat := lat, lng := lng } })) })

/-- The body of the pending-request timeout callback: it emits `rideTimeout`
to the notified candidates and deletes `rideTimers[rideId]` — nothing else.
A `setTimeout` callback can only run while its timer is still registered
(`clearTimeout` in `finalizeRide` prevents a cleared timer from firing),
so firing is guarded by membership in `rideTimers`; outside that guard the
operation cannot occur and is modelled as a failure that changes nothing. -/
def timerFire (st : ServerState) (rid : String) : Result × ServerState :=
  if st.rideTimers.contains rid then
    (Result.success, { st with rideTimers := st.rideTimers.erase rid })
  else
    (Result.failure "No pending timer", st)

/-- The `registerDriver` handler: requires a `driverId`, then overwrites the
driver record with `online: true`. -/
def registerDriver (st : ServerState) (driverId : Option String) (socketId : String) :
    Result × ServerState :=
  match driverId with
  | none => (Result.failure "Missing driverId", st)
  | some d =>
      (Result.success,
        { st with drivers := setDriver st.drivers { driverId := d, socketId := socketId, online := true } })

/-- The `driverOnline` handler: flips `online` to true when the record exists. -/
def driverOnline (st : ServerState) (d : String) : Result × ServerState :=
  (Result.success,
    { st with drivers := st.drivers.map (fun x => if x.driverId == d then { x with online := true } else x) })

/-- The `driverOffline` handler: flips `online` to false when the record exists. -/
def driverOffline (st : ServerState) (d : String) : Result × ServerState :=
  (Result.success,
    { st with drivers := st.drivers.map (fun x => if x.driverId == d then { x with online := false } else x) })

/-- One inbound event (or timer expiry) processed by the server. -/
inductive Op
  | rideRequested (p : RidePayload) (now : Nat)
  | acceptRide (rid driverId : String) (loc : Option Location)
  | driverArrived (rid : String)
  | startRide (rid : String)
  | completeDestination (rid : String)
  | cancelRide (rid : String)
  | updateLocation (rid : String) (lat lng : Int) (now : Nat)
  | timerFire (rid : String)
  | registerDriver (driverId : Option String) (socketId : String)
  | driverOnline (d : String)
  | driverOffline (d : String)
  deriving DecidableEq, Repr

def step (st : ServerState) : Op → Result × ServerState
  | Op.rideRequested p now => rideRequested st p now
  | Op.acceptRide rid d loc => acceptRide st rid d loc
  | Op.driverArrived rid => driverArrived st rid
  | Op.startRide rid => startRide st rid
  | Op.completeDestination rid => completeDestination st rid
  | Op.cancelRide rid => cancelRide st rid
  | Op.updateLocation rid lat lng now => updateLocation st rid lat lng now
  | Op.timerFire rid => timerFire st rid
  | Op.registerDriver d s => registerDriver st d s
  | Op.driverOnline d => driverOnline st d
  | Op.driverOffline d => driverOffline st d

/-- Run a sequence of events, keeping only the final state. -/
def run (st : ServerState) (ops : List Op) : ServerState :=
  ops.foldl (fun s o => (step s o).2) st

/-- Run a sequence of events, collecting each event's callback result. -/
def runResults (st : ServerState) : List Op → List Result × ServerState
  | [] => ([], st)
  | o :: rest =>
      let s := step st o
      let t := runResults s.2 rest
      (s.1 :: t.1, t.2)

/-- Spec notion of a non-terminal ride (terminal statuses are
`completed`/`cancelled`/`timedOut`; the code's status enum has no
`timedOut`). -/
def nonTerminal (r : Ride) : Bool :=
  !(r.status == some RideStatus.completed || r.status == some RideStatus.cancelled)

/-- The rides a driver currently holds in a non-terminal status. -/
def activeRidesOf (st : ServerState) (d : String) : List Ride :=
  st.rides.filter (fun r => r.driverId == some d && nonTerminal r)

end RideProcess

namespace ReconnectV2

/-- The per-ride Redis hash `ride:{roomToken}` of the Redis-backed variant.
`lastCancelled` holds the JSON-serialized cancellation payload (kept opaque
as a `String`); `lastDriverLocation` the JSON-serialized last location. -/
structure RideHash where
  rideRequestId : Option String
  riderId : Option String
  roomToken : Option String
  status : Option String
  lastCancelled : Option String
  lastDriverLocation : Option RideProcess.Location
  createdAt : Option Nat
  updatedAt : Option Nat
  deriving DecidableEq, Repr

/-- A hash with no fields set (what `hgetall` yields for an absent key). -/
def emptyHash : RideHash :=
  { rideRequestId := none, riderId := none, roomToken := none, status := none,
    lastCancelled := none, lastDriverLocation := none, createdAt := none, updatedAt := none }

/-- One event emitted to the reconnecting socket during the
`user:reconnect` replay. -/
inductive ReplayEvent
  | rideCancelled (payload : String)
  | rideRequestedReplay (rideRequestId riderId roomToken : Option String)
  | rideStatus (status : String)
  | rideDriverLocation (loc : RideProcess.Location)
  deriving DecidableEq, Repr

/-- The replay performed by the `user:reconnect` handler once the hash was
fetched and found non-empty: emit the cancellation if `lastCancelled` is set,
else the original request if `status == "requested"`, else the bare status if
present; then — unconditionally — the last driver location if one is stored. -/
def replayEvents (h : RideHash) : List ReplayEvent :=
  (match h.lastCancelled, h.status with
   | some c, _ => [ReplayEvent.rideCancelled c]
   | none, some s =>
       if s == "requested" then
         [ReplayEvent.rideRequestedReplay h.rideRequestId h.riderId h.roomToken]
       else [ReplayEvent.rideStatus s]
   | none, none => []) ++
  (match h.lastDriverLocation with
   | some loc => [ReplayEvent.rideDriverLocation loc]
   | none => [])

/-- The `user:reconnect` handler replays nothing when the hash is empty. -/
def reconnectReplay (h : Option RideHash) : List ReplayEvent :=
  match h with
  | none => []
  | some hh => replayEvents hh

/-- The `driver:location` handler's write
(`hset` of `lastDriverLocation` and `updatedAt` only; `hset` creates the
hash when absent). -/
def driverLocationUpdate (h : Option RideHash) (loc : RideProcess.Location) (now : Nat) :
    RideHash :=
  { h.getD emptyHash with lastDriverLocation := some loc, updatedAt := some now }

/-- The `ride:cancel` handler's write
(`hset` of `status = "cancelled"`, `lastCancelled` and `updatedAt`). -/
def cancelUpdate (h : Option RideHash) (payload : String) (now : Nat) : RideHash :=
  { h.getD emptyHash with status := some "cancelled", lastCancelled := some payload,
                          updatedAt := some now }

end ReconnectV2

namespace RideProcess

theorem find?_updateRide (rs : List Ride) (rid rid0 : String) (f : Ride → Ride)
    (hf : ∀ r, (f r).rideId = r.rideId) :
    (updateRide rs rid f).find? (fun x => x.rideId == rid0)
      = (rs.find? (fun x => x.rideId == rid0)).map (fun r => if r.rideId == rid then f r else r) := by
  have hg : ∀ x : Ride, (if (x.rideId == rid) = true then f x else x).rideId = x.rideId := by
    intro x
    by_cases hx : (x.rideId == rid) = true
    · simp [hx, hf x]
    · simp [hx]
  unfold updateRide
  rw [List.find?_map]
  have hsame : ∀ l : List Ride,
      l.find? ((fun x => x.rideId == rid0) ∘ fun x => if (x.rideId == rid) = true then f x else x)
        = l.find? (fun x => x.rideId == rid0) := by
    intro l
    induction l with
    | nil => rfl
    | cons y ys ih =>
        by_cases h0 : (y.rideId == rid0) = true
        · have hpy : ((fun x => x.rideId == rid0) ∘
              fun x => if (x.rideId == rid) = true then f x else x) y = true := by
            show ((if (y.rideId == rid) = true then f y else y).rideId == rid0) = true
            rw [hg y]
            exact h0
          rw [List.find?_cons_of_pos ys hpy,
              List.find?_cons_of_pos (p := fun x => x.rideId == rid0) ys h0]
        · have hpy : ¬ ((fun x => x.rideId == rid0) ∘
              fun x => if (x.rideId == rid) = true then f x else x) y = true := by
            show ¬ ((if (y.rideId == rid) = true then f y else y).rideId == rid0) = true
            rw [hg y]
            exact h0
          rw [List.find?_cons_of_neg ys hpy,
              List.find?_cons_of_neg (p := fun x => x.rideId == rid0) ys h0, ih]
  rw [hsame]

theorem getRide_updateRide (st : ServerState) (rid rid0 : String) (f : Ride → Ride)
    (hf : ∀ r, (f r).rideId = r.rideId) :
    getRide { st with rides := updateRide st.rides rid f } rid0
      = (getRide st rid0).map (fun r => if r.rideId == rid then f r else r) := by
  simp [getRide, find?_updateRide st.rides rid rid0 f hf]

theorem find?_setRide_self (rs : List Ride) (r : Ride) :
    (setRide rs r).find? (fun x => x.rideId == r.rideId) = some r := by
  induction rs with
  | nil => simp [setRide]
  | cons y ys ih =>
      by_cases hy : y.rideId == r.rideId
      · simp [setRide, hy]
      · simp [setRide, hy, ih]

theorem getRide_rides (st : ServerState) (rid : String) :
    getRide st rid = st.rides.find? (fun x => x.rideId == rid) := rfl

/-- A successful acceptance: lock free, ride present and `requested`. -/
theorem acceptRide_success (st : ServerState) (rid d : String) (r : Ride)
    (h1 : getRide st rid = some r) (h2 : r.status = some RideStatus.requested)
    (h3 : st.rideLocks.contains rid = false) :
    acceptRide st rid d none =
      (Result.success,
        { st with rides := (updateRide st.rides rid (fun x =>
                    { x with status := some RideStatus.accepted, driverId := some d })),
                  rideTimers := st.rideTimers.erase rid }) := by
  have h1' : getRide { st with rideLocks := rid :: st.rideLocks } rid = some r := h1
  unfold acceptRide
  rw [h3]
  simp only [Bool.false_eq_true, if_false, h1', h2, beq_self_eq_true, if_pos]
  simp [List.erase_cons_head]

/-- A failed acceptance: lock free but the ride is missing or not `requested`.
The handler reports `Ride not available` and restores the state exactly. -/
theorem acceptRide_unavailable (st : ServerState) (rid d : String) (loc : Option Location)
    (h3 : st.rideLocks.contains rid = false)
    (h : ∀ r, getRide st rid = some r → r.status ≠ some RideStatus.requested) :
    acceptRide st rid d loc = (Result.failure "Ride not available", st) := by
  unfold acceptRide
  rw [h3]
  simp only [Bool.false_eq_true, if_false]
  cases hg : getRide { st with rideLocks := rid :: st.rideLocks } rid with
  | none => simp [List.erase_cons_head]
  | some r =>
      have hr : r.status ≠ some RideStatus.requested := h r hg
      have hb : (r.status == some RideStatus.requested) = false := by
        simpa using hr
      simp [hb, List.erase_cons_head]

/-- Folding a list of `acceptRide` events over a state where the ride is not
`requested`: every call fails with `Ride not available` and the state is
untouched. -/
theorem runResults_accepts_unavailable (st : ServerState) (rid : String) (ds : List String)
    (h3 : st.rideLocks.contains rid = false)
    (h : ∀ r, getRide st rid = some r → r.status ≠ some RideStatus.requested) :
    runResults st (ds.map (fun d => Op.acceptRide rid d none))
      = (ds.map (fun _ => Result.failure "Ride not available"), st) := by
  induction ds with
  | nil => rfl
  | cons d rest ih =>
      have hstep : step st (Op.acceptRide rid d none)
          = (Result.failure "Ride not available", st) :=
        acceptRide_unavailable st rid d none h3 h
      simp only [List.map_cons, runResults, hstep, ih]

/-- A well-formed `rideRequested` payload carrying only identity, destinations
and nothing else, as the client apps send it. -/
def mkPayload (rid uid : String) (ds : Option (List Destination)) : RidePayload :=
  { rideId := some rid, userId := some uid, driverId := none, status := none,
    driverLocation := none, pickupLocation := none, destinations := ds,
    currentIndex := none, createdAt := none }

/-- State with the single ride `r1` of user `u1`, freshly requested. -/
def oneRequestedState : ServerState :=
  run initState [Op.rideRequested (mkPayload "r1" "u1" (some [])) 10]

/-- The stored ride of `oneRequestedState`. -/
def oneRequestedRide : Ride :=
  { rideId := "r1", userId := "u1", driverId := none,
    status := some RideStatus.requested, driverLocation := none, pickupLocation := none,
    destinations := some [], currentIndex := some 0, createdAt := some 10 }

end RideProcess

namespace RideProcess

/-- Claim C1: against a `requested` ride, a sequence of `AcceptRide` calls
(any drivers, any order) yields success for the first call and
`Ride not available` for every later call: exactly one success, the ride
ends `accepted` and assigned to the winning driver, and the losing calls
leave the ride unchanged. -/
theorem C1_accept_exactly_one_success (st : ServerState) (rid : String) (r : Ride)
    (d : String) (rest : List String)
    (h1 : getRide st rid = some r) (h2 : r.status = some RideStatus.requested)
    (h3 : st.rideLocks.contains rid = false) :
    (runResults st ((d :: rest).map (fun x => Op.acceptRide rid x none))).1
        = Result.success :: rest.map (fun _ => Result.failure "Ride not available") ∧
    (runResults st ((d :: rest).map (fun x => Op.acceptRide rid x none))).1.count
        Result.success = 1 ∧
    getRide (runResults st ((d :: rest).map (fun x => Op.acceptRide rid x none))).2 rid
        = some { r with status := some RideStatus.accepted, driverId := some d } := by
  have hrid : (r.rideId == rid) = true := by
    have h1' : st.rides.find? (fun x => x.rideId == rid) = some r := h1
    simpa using List.find?_some h1'
  have hstep : step st (Op.acceptRide rid d none)
      = (Result.success,
          { st with rides := (updateRide st.rides rid (fun x =>
                      { x with status := some RideStatus.accepted, driverId := some d })),
                    rideTimers := st.rideTimers.erase rid }) :=
    acceptRide_success st rid d r h1 h2 h3
  set st1 : ServerState :=
    { st with rides := (updateRide st.rides rid (fun x =>
                { x with status := some RideStatus.accepted, driverId := some d })),
              rideTimers := st.rideTimers.erase rid } with hst1
  have hg1 : getRide st1 rid
      = some { r with status := some RideStatus.accepted, driverId := some d } := by
    have := getRide_updateRide st rid rid
      (fun x => { x with status := some RideStatus.accepted, driverId := some d })
      (fun _ => rfl)
    have hswap : getRide st1 rid
        = getRide { st with rides := (updateRide st.rides rid (fun x =>
            { x with status := some RideStatus.accepted, driverId := some d })) } rid := rfl
    have hrid' : r.rideId = rid := by simpa using hrid
    rw [hswap, this, h1]
    simp [hrid']
  have h3' : st1.rideLocks.contains rid = false := h3
  have hni : ∀ r2, getRide st1 rid = some r2 → r2.status ≠ some RideStatus.requested := by
    intro r2 hr2
    rw [hg1] at hr2
    cases hr2
    simp
  have hrest := runResults_accepts_unavailable st1 rid rest h3' hni
  have hcount : ∀ l : List String,
      (l.map (fun _ => Result.failure "Ride not available")).count Result.success = 0 := by
    intro l
    induction l with
    | nil => rfl
    | cons a l ih =>
        simp only [List.map_cons, List.count_cons, ih]
        rfl
  refine ⟨?_, ?_, ?_⟩
  · simp only [List.map_cons, runResults, hstep, hrest]
  · simp only [List.map_cons, runResults, hstep, hrest, List.count_cons, hcount rest]
    rfl
  · simp only [List.map_cons, runResults, hstep, hrest]
    exact hg1

theorem buildRide_rideId (p : RidePayload) (rid uid : String) (now : Nat) :
    (buildRide p rid uid now).rideId = rid := by
  unfold buildRide
  cases p.destinations <;> rfl

/-- A valid `rideRequested` payload is stored under its `rideId` as
`buildRide` and acknowledged with success, whatever was stored before. -/
theorem rideRequested_valid (st : ServerState) (p : RidePayload) (now : Nat)
    (rid uid : String) (h1 : p.rideId = some rid) (h2 : p.userId = some uid) :
    (rideRequested st p now).1 = Result.success ∧
    getRide (rideRequested st p now).2 rid = some (buildRide p rid uid now) := by
  have hfind : (setRide st.rides (buildRide p rid uid now)).find?
      (fun x => x.rideId == (buildRide p rid uid now).rideId) = some (buildRide p rid uid now) :=
    find?_setRide_self st.rides (buildRide p rid uid now)
  rw [buildRide_rideId] at hfind
  unfold rideRequested
  rw [h1, h2]
  exact ⟨rfl, hfind⟩

/-- An invalid `rideRequested` payload (missing `rideId` or `userId`) is
rejected and nothing is stored. -/
theorem rideRequested_invalid (st : ServerState) (p : RidePayload) (now : Nat)
    (h : p.rideId = none ∨ p.userId = none) :
    rideRequested st p now = (Result.failure "Invalid ride payload", st) := by
  unfold rideRequested
  cases h with
  | inl h => rw [h]
  | inr h => rw [h]; cases p.rideId <;> rfl

/-- Witness for C1 at a concrete state: ride `r1` requested, three drivers
race; the first wins, the other two get `Ride not available`. -/
theorem C1_accept_exactly_one_success_witness :
    (runResults oneRequestedState ((["d1", "d2", "d3"]).map
        (fun x => Op.acceptRide "r1" x none))).1
      = Result.success :: (["d2", "d3"]).map (fun _ => Result.failure "Ride not available") ∧
    (runResults oneRequestedState ((["d1", "d2", "d3"]).map
        (fun x => Op.acceptRide "r1" x none))).1.count Result.success = 1 ∧
    getRide (runResults oneRequestedState ((["d1", "d2", "d3"]).map
        (fun x => Op.acceptRide "r1" x none))).2 "r1"
      = some { oneRequestedRide with status := some RideStatus.accepted,
                                     driverId := some "d1" } :=
  C1_accept_exactly_one_success oneRequestedState "r1" oneRequestedRide "d1" ["d2", "d3"]
    (by decide) (by decide) (by decide)

theorem buildRide_destinations (p : RidePayload) (rid uid : String) (now : Nat)
    (ds : List Destination) (h : p.destinations = some ds) :
    buildRide p rid uid now =
      { rideId := rid, userId := uid, driverId := p.driverId,
        status := some RideStatus.requested,
        driverLocation := p.driverLocation, pickupLocation := p.pickupLocation,
        destinations := some ((ds.take 4).map (fun d => { d with status := some DestStatus.pending })),
        currentIndex := some 0, createdAt := some now } := by
  unfold buildRide
  rw [h]

theorem buildRide_status (p : RidePayload) (rid uid : String) (now : Nat) :
    (buildRide p rid uid now).status = some RideStatus.requested := by
  unfold buildRide
  cases p.destinations <;> rfl

/-- Claim C8: a valid ride request creates a `requested` ride with
`currentIndex = 0`, `createdAt` set, and destinations truncated to the first 4
entries, each forced to the `pending` sub-status; a payload missing `rideId`
or `userId` is rejected with the invalid-payload error and nothing is
persisted. -/
theorem C8_createRide (st : ServerState) (p q : RidePayload) (now : Nat) :
    (∀ rid uid ds, p.rideId = some rid → p.userId = some uid → p.destinations = some ds →
        (rideRequested st p now).1 = Result.success ∧
        getRide (rideRequested st p now).2 rid = some
          { rideId := rid, userId := uid, driverId := p.driverId,
            status := some RideStatus.requested,
            driverLocation := p.driverLocation, pickupLocation := p.pickupLocation,
            destinations := some ((ds.take 4).map
              (fun d => { d with status := some DestStatus.pending })),
            currentIndex := some 0, createdAt := some now }) ∧
    (q.rideId = none ∨ q.userId = none →
        rideRequested st q now = (Result.failure "Invalid ride payload", st)) := by
  constructor
  · intro rid uid ds h1 h2 h3
    have hv := rideRequested_valid st p now rid uid h1 h2
    rw [buildRide_destinations p rid uid now ds h3] at hv
    exact hv
  · exact rideRequested_invalid st q now

/-- Five destinations: one more than the server retains. -/
def fiveDests : List Destination :=
  [{ lat := 0, lng := 0, status := none }, { lat := 1, lng := 1, status := none },
   { lat := 2, lng := 2, status := none }, { lat := 3, lng := 3, status := none },
   { lat := 4, lng := 4, status := none }]

/-- A payload with no `rideId`, as rejected by `validateRidePayload`. -/
def invalidPayload : RidePayload :=
  { rideId := none, userId := some "u1", driverId := none, status := none,
    driverLocation := none, pickupLocation := none, destinations := none,
    currentIndex := none, createdAt := none }

/-- Witness for C8: a 5-destination request is stored truncated to 4 pending
destinations with `currentIndex = 0`; a payload without `rideId` fails. -/
theorem C8_createRide_witness :
    ((rideRequested initState (mkPayload "r1" "u1" (some fiveDests)) 10).1 = Result.success ∧
     getRide (rideRequested initState (mkPayload "r1" "u1" (some fiveDests)) 10).2 "r1" = some
       { rideId := "r1", userId := "u1",
         driverId := (mkPayload "r1" "u1" (some fiveDests)).driverId,
         status := some RideStatus.requested,
         driverLocation := (mkPayload "r1" "u1" (some fiveDests)).driverLocation,
         pickupLocation := (mkPayload "r1" "u1" (some fiveDests)).pickupLocation,
         destinations := some ((fiveDests.take 4).map
           (fun d => { d with status := some DestStatus.pending })),
         currentIndex := some 0, createdAt := some 10 }) ∧
    rideRequested initState invalidPayload 10 = (Result.failure "Invalid ride payload", initState) :=
  ⟨(C8_createRide initState (mkPayload "r1" "u1" (some fiveDests)) invalidPayload 10).1
      "r1" "u1" fiveDests rfl rfl rfl,
   (C8_createRide initState (mkPayload "r1" "u1" (some fiveDests)) invalidPayload 10).2
      (Or.inl rfl)⟩

/-- Claim C10: a `rideRequested` event whose `rideId` collides with an
existing ride — whatever its status, even accepted or completed — is not
rejected: it overwrites the stored ride and resets its status to
`requested`. -/
theorem C10_request_overwrites (st : ServerState) (p : RidePayload) (now : Nat)
    (rid uid : String) (r0 : Ride)
    (_h0 : getRide st rid = some r0)
    (h1 : p.rideId = some rid) (h2 : p.userId = some uid) :
    (rideRequested st p now).1 = Result.success ∧
    getRide (rideRequested st p now).2 rid = some (buildRide p rid uid now) ∧
    (buildRide p rid uid now).status = some RideStatus.requested := by
  have hv := rideRequested_valid st p now rid uid h1 h2
  exact ⟨hv.1, hv.2, buildRide_status p rid uid now⟩

/-- State holding the single ride `r1`, already accepted by driver `d1`. -/
def acceptedState : ServerState :=
  run initState [Op.rideRequested (mkPayload "r1" "u1" (some [])) 10,
                 Op.acceptRide "r1" "d1" none]

/-- The stored ride of `acceptedState`. -/
def acceptedRide : Ride :=
  { rideId := "r1", userId := "u1", driverId := some "d1",
    status := some RideStatus.accepted, driverLocation := none, pickupLocation := none,
    destinations := some [], currentIndex := some 0, createdAt := some 10 }

/-- Witness for C10: replaying the request over the already-`accepted` ride
`r1` succeeds and moves it back to `requested`. -/
theorem C10_request_overwrites_witness :
    (rideRequested acceptedState (mkPayload "r1" "u1" (some [])) 99).1 = Result.success ∧
    getRide (rideRequested acceptedState (mkPayload "r1" "u1" (some [])) 99).2 "r1"
      = some (buildRide (mkPayload "r1" "u1" (some [])) "r1" "u1" 99) ∧
    (buildRide (mkPayload "r1" "u1" (some [])) "r1" "u1" 99).status
      = some RideStatus.requested :=
  C10_request_overwrites acceptedState (mkPayload "r1" "u1" (some [])) 99 "r1" "u1"
    acceptedRide (by decide) rfl rfl

theorem markDest_get? (ds : List Destination) (idx : Nat) :
    (markDest ds idx).get? idx
      = (ds.get? idx).map (fun d => { d with status := some DestStatus.completed }) := by
  induction ds generalizing idx with
  | nil => cases idx <;> rfl
  | cons d ds ih =>
      cases idx with
      | zero => rfl
      | succ n => simpa [markDest] using ih n

theorem completeDestination_exhausted (st : ServerState) (rid : String) (r : Ride)
    (ds : List Destination)
    (hg : getRide st rid = some r) (hst : r.status = some RideStatus.inProgress)
    (hds : r.destinations = some ds) (hidx : r.currentIndex.getD 0 ≥ ds.length) :
    completeDestination st rid = (Result.failure "No destinations available", st) := by
  unfold completeDestination
  simp [hg, hst, hds, hidx]

theorem completeDestination_advance (st : ServerState) (rid : String) (r : Ride)
    (ds : List Destination)
    (hg : getRide st rid = some r) (hst : r.status = some RideStatus.inProgress)
    (hds : r.destinations = some ds) (hidx : r.currentIndex.getD 0 < ds.length - 1) :
    completeDestination st rid =
      (Result.success,
        { st with rides := (updateRide st.rides rid (fun x =>
            { x with destinations := some (markDest ds (r.currentIndex.getD 0)),
                     currentIndex := some (r.currentIndex.getD 0 + 1) })) }) := by
  have hlt : r.currentIndex.getD 0 < ds.length := lt_of_lt_of_le hidx (Nat.sub_le _ _)
  have h1 : ¬ ds.length ≤ r.currentIndex.getD 0 := Nat.not_le.mpr hlt
  unfold completeDestination
  simp [hg, hst, hds, h1, hidx]

theorem completeDestination_last (st : ServerState) (rid : String) (r : Ride)
    (ds : List Destination)
    (hg : getRide st rid = some r) (hst : r.status = some RideStatus.inProgress)
    (hds : r.destinations = some ds) (hlt : r.currentIndex.getD 0 < ds.length)
    (hlast : ¬ r.currentIndex.getD 0 < ds.length - 1) :
    completeDestination st rid =
      (Result.success,
        { st with rides := (updateRide st.rides rid (fun x =>
            { x with destinations := some (markDest ds (r.currentIndex.getD 0)),
                     status := some RideStatus.completed })) }) := by
  have h1 : ¬ ds.length ≤ r.currentIndex.getD 0 := Nat.not_le.mpr hlt
  unfold completeDestination
  simp [hg, hst, hds, h1, hlast]

/-- The scenario trace: a ride with two destinations is requested, accepted,
started, then `completeDestination` is called twice. -/
def twoDestTrace : List Op :=
  [Op.rideRequested (mkPayload "r1" "u1"
      (some [{ lat := 0, lng := 0, status := none }, { lat := 1, lng := 1, status := none }])) 10,
   Op.acceptRide "r1" "d1" none,
   Op.driverArrived "r1",
   Op.startRide "r1",
   Op.completeDestination "r1",
   Op.completeDestination "r1"]

/-- Claim C7: `CompleteDestination` on an `inProgress` ride fails with the
no-destinations error when the destination sequence is exhausted; otherwise it
marks `destinations[currentIndex]` completed and either advances
`currentIndex` (status stays `inProgress`) or, on the last entry, completes
the ride with `currentIndex` unchanged.  For the 2-destination scenario, the
first call leaves `currentIndex = 1` and status `inProgress`, the second
completes both destinations with `currentIndex` still 1. -/
theorem C7_completeDestination (st : ServerState) (rid : String) (r : Ride)
    (ds : List Destination)
    (hg : getRide st rid = some r) (hst : r.status = some RideStatus.inProgress)
    (hds : r.destinations = some ds) :
    (r.currentIndex.getD 0 ≥ ds.length →
        completeDestination st rid = (Result.failure "No destinations available", st)) ∧
    (r.currentIndex.getD 0 < ds.length - 1 →
        (completeDestination st rid).1 = Result.success ∧
        getRide (completeDestination st rid).2 rid = some
          { r with destinations := some (markDest ds (r.currentIndex.getD 0)),
                   currentIndex := some (r.currentIndex.getD 0 + 1) } ∧
        ({ r with destinations := some (markDest ds (r.currentIndex.getD 0)),
                  currentIndex := some (r.currentIndex.getD 0 + 1) } : Ride).status
          = some RideStatus.inProgress ∧
        (markDest ds (r.currentIndex.getD 0)).get? (r.currentIndex.getD 0)
          = (ds.get? (r.currentIndex.getD 0)).map
              (fun d => { d with status := some DestStatus.completed })) ∧
    (r.currentIndex.getD 0 < ds.length → ¬ r.currentIndex.getD 0 < ds.length - 1 →
        (completeDestination st rid).1 = Result.success ∧
        getRide (completeDestination st rid).2 rid = some
          { r with destinations := some (markDest ds (r.currentIndex.getD 0)),
                   status := some RideStatus.completed } ∧
        ({ r with destinations := some (markDest ds (r.currentIndex.getD 0)),
                  status := some RideStatus.completed } : Ride).currentIndex = r.currentIndex ∧
        (markDest ds (r.currentIndex.getD 0)).get? (r.currentIndex.getD 0)
          = (ds.get? (r.currentIndex.getD 0)).map
              (fun d => { d with status := some DestStatus.completed })) ∧
    ((runResults initState twoDestTrace).1
        = [Result.success, Result.success, Result.success, Result.success,
           Result.success, Result.success] ∧
     getRide (run initState (twoDestTrace.take 5)) "r1" = some
       { rideId := "r1", userId := "u1", driverId := some "d1",
         status := some RideStatus.inProgress, driverLocation := none, pickupLocation := none,
         destinations := some [{ lat := 0, lng := 0, status := some DestStatus.completed },
                               { lat := 1, lng := 1, status := some DestStatus.pending }],
         currentIndex := some 1, createdAt := some 10 } ∧
     getRide (run initState twoDestTrace) "r1" = some
       { rideId := "r1", userId := "u1", driverId := some "d1",
         status := some RideStatus.completed, driverLocation := none, pickupLocation := none,
         destinations := some [{ lat := 0, lng := 0, status := some DestStatus.completed },
                               { lat := 1, lng := 1, status := some DestStatus.completed }],
         currentIndex := some 1, createdAt := some 10 }) := by
  have hrid : (r.rideId == rid) = true := by
    have hg' : st.rides.find? (fun x => x.rideId == rid) = some r := hg
    simpa using List.find?_some hg'
  have hrid' : r.rideId = rid := by simpa using hrid
  refine ⟨?_, ?_, ?_, ?_⟩
  · intro hidx
    exact completeDestination_exhausted st rid r ds hg hst hds hidx
  · intro hidx
    rw [completeDestination_advance st rid r ds hg hst hds hidx]
    refine ⟨rfl, ?_, by simpa using hst, markDest_get? ds _⟩
    dsimp only
    rw [getRide_updateRide st rid rid (fun x =>
          { x with destinations := some (markDest ds (r.currentIndex.getD 0)),
                   currentIndex := some (r.currentIndex.getD 0 + 1) }) (fun _ => rfl), hg]
    simp [hrid']
  · intro hlt hlast
    rw [completeDestination_last st rid r ds hg hst hds hlt hlast]
    refine ⟨rfl, ?_, rfl, markDest_get? ds _⟩
    dsimp only
    rw [getRide_updateRide st rid rid (fun x =>
          { x with destinations := some (markDest ds (r.currentIndex.getD 0)),
                   status := some RideStatus.completed }) (fun _ => rfl), hg]
    simp [hrid']
  · exact ⟨by decide, by decide, by decide⟩

/-- Witness for C7 at the concrete 2-destination ride in progress
(`currentIndex = 0`, two pending destinations). -/
theorem C7_completeDestination_witness :
    ((0 : Nat) ≥ 2 → completeDestination (run initState (twoDestTrace.take 4)) "r1"
        = (Result.failure "No destinations available",
           run initState (twoDestTrace.take 4))) ∧
    ((0 : Nat) < 1 →
        (completeDestination (run initState (twoDestTrace.take 4)) "r1").1 = Result.success) := by
  have hr : getRide (run initState (twoDestTrace.take 4)) "r1" = some
      { rideId := "r1", userId := "u1", driverId := some "d1",
        status := some RideStatus.inProgress, driverLocation := none, pickupLocation := none,
        destinations := some [{ lat := 0, lng := 0, status := some DestStatus.pending },
                              { lat := 1, lng := 1, status := some DestStatus.pending }],
        currentIndex := some 0, createdAt := some 10 } := by decide
  have h := C7_completeDestination (run initState (twoDestTrace.take 4)) "r1"
      { rideId := "r1", userId := "u1", driverId := some "d1",
        status := some RideStatus.inProgress, driverLocation := none, pickupLocation := none,
        destinations := some [{ lat := 0, lng := 0, status := some DestStatus.pending },
                              { lat := 1, lng := 1, status := some DestStatus.pending }],
        currentIndex := some 0, createdAt := some 10 }
      [{ lat := 0, lng := 0, status := some DestStatus.pending },
       { lat := 1, lng := 1, status := some DestStatus.pending }]
      hr rfl rfl
  exact ⟨fun hx => h.1 hx, fun hx => (h.2.1 hx).1⟩

/-- Driver `d1` accepts ride `r1`, then also accepts the freshly requested
ride `r2`: nothing in `acceptRide` checks the driver's existing rides. -/
def doubleBookTrace : List Op :=
  [Op.rideRequested (mkPayload "r1" "u1" (some [])) 10,
   Op.acceptRide "r1" "d1" none,
   Op.rideRequested (mkPayload "r2" "u2" (some [])) 20,
   Op.acceptRide "r2" "d1" none]

/-- Claim C2 counterexample: after `doubleBookTrace` every call succeeded and
driver `d1` holds two rides in a non-terminal (`accepted`) status, so the
at-most-one-active-ride-per-driver invariant fails on a reachable state. -/
theorem C2_counterexample_double_booking :
    (runResults initState doubleBookTrace).1
      = [Result.success, Result.success, Result.success, Result.success] ∧
    (activeRidesOf (run initState doubleBookTrace) "d1").length = 2 := by
  exact ⟨by decide, by decide⟩

/-- Claim C2 amended: only the dispatch-side candidate filter enforces
driver availability — a candidate notified of a new request is online and has
no ride in `accepted`/`driverArrived`/`inProgress` — while `acceptRide`
itself never checks the accepting driver, so a driver who accepts without
being a candidate can hold several non-terminal rides at once. -/
theorem C2_amended_candidate_filter (st : ServerState) (d : Driver)
    (hd : d ∈ candidateDrivers st) :
    d.online = true ∧ hasActiveRide st.rides d.driverId = false := by
  have hmem : d ∈ st.drivers.filter (fun x => x.online && !hasActiveRide st.rides x.driverId) :=
    List.take_subset 3 _ hd
  have hp := (List.mem_filter.mp hmem).2
  rw [Bool.and_eq_true] at hp
  exact ⟨hp.1, by simpa using hp.2⟩

/-- State with the single registered (online, free) driver `d1`. -/
def oneDriverState : ServerState :=
  run initState [Op.registerDriver (some "d1") "s1"]

/-- Witness for the C2 amended theorem: in `oneDriverState` the driver record
is a candidate and is indeed online with no active ride. -/
theorem C2_amended_candidate_filter_witness :
    ({ driverId := "d1", socketId := "s1", online := true } : Driver).online = true ∧
    hasActiveRide oneDriverState.rides
      ({ driverId := "d1", socketId := "s1", online := true } : Driver).driverId = false :=
  C2_amended_candidate_filter oneDriverState
    { driverId := "d1", socketId := "s1", online := true } (by decide)

/-- A request payload that already carries a `driverId` — `validateRidePayload`
does not reject it and the handler stores it untouched. -/
def payloadWithDriver : RidePayload :=
  { mkPayload "r0" "u0" (some []) with driverId := some "dx" }

/-- Ride `r1` is accepted by `d1`, then the request is replayed and `d2`
accepts the rebuilt ride. -/
def hijackTrace : List Op :=
  [Op.rideRequested (mkPayload "r1" "u1" (some [])) 10,
   Op.acceptRide "r1" "d1" none,
   Op.rideRequested (mkPayload "r1" "u1" (some [])) 30,
   Op.acceptRide "r1" "d2" none]

/-- Claim C3 counterexample: (1) a ride in `requested` status can have
`driverId` set, straight from the client payload; (2) a `driverId` set at
acceptance is not immutable — replaying the request and re-accepting
reassigns the same ride from `d1` to `d2`. -/
theorem C3_counterexample_driver_reassigned :
    ((getRide (rideRequested initState payloadWithDriver 10).2 "r0").map Ride.driverId
        = some (some "dx") ∧
     (getRide (rideRequested initState payloadWithDriver 10).2 "r0").map Ride.status
        = some (some RideStatus.requested)) ∧
    ((getRide (run initState (hijackTrace.take 2)) "r1").map Ride.driverId
        = some (some "d1") ∧
     (getRide (run initState hijackTrace) "r1").map Ride.driverId
        = some (some "d2")) := by
  exact ⟨⟨by decide, by decide⟩, ⟨by decide, by decide⟩⟩

/-- The two operations that write `driverId`: `rideRequested` stores the raw
payload (whose `driverId` passes through), `acceptRide` assigns the accepting
driver. -/
def writesDriverId : Op → Bool
  | Op.rideRequested _ _ => true
  | Op.acceptRide _ _ _ => true
  | _ => false

theorem driverId_preserved_updateRide (rs : List Ride) (rid1 rid : String) (f : Ride → Ride)
    (hf : ∀ x, (f x).rideId = x.rideId) (hd : ∀ x, (f x).driverId = x.driverId)
    (r : Ride) (hg : rs.find? (fun x => x.rideId == rid) = some r) :
    ∃ r', (updateRide rs rid1 f).find? (fun x => x.rideId == rid) = some r'
      ∧ r'.driverId = r.driverId := by
  rw [find?_updateRide rs rid1 rid f hf, hg]
  by_cases h : r.rideId = rid1
  · refine ⟨f r, ?_, hd r⟩
    simp [h]
  · refine ⟨r, ?_, rfl⟩
    simp [h]

theorem buildRide_driverId (p : RidePayload) (rid uid : String) (now : Nat) :
    (buildRide p rid uid now).driverId = p.driverId := by
  unfold buildRide
  cases p.destinations <;> rfl

theorem getRide_acceptRide_success (st : ServerState) (rid d : String) (r : Ride)
    (h1 : getRide st rid = some r) (h2 : r.status = some RideStatus.requested)
    (h3 : st.rideLocks.contains rid = false) :
    getRide (acceptRide st rid d none).2 rid
      = some { r with status := some RideStatus.accepted, driverId := some d } := by
  have hrid' : r.rideId = rid := by
    have h1' : st.rides.find? (fun x => x.rideId == rid) = some r := h1
    simpa using List.find?_some h1'
  rw [acceptRide_success st rid d r h1 h2 h3]
  dsimp only
  have hswap : getRide
      { st with rides := (updateRide st.rides rid (fun x =>
          { x with status := some RideStatus.accepted, driverId := some d })),
                rideTimers := st.rideTimers.erase rid } rid
      = getRide { st with rides := (updateRide st.rides rid (fun x =>
          { x with status := some RideStatus.accepted, driverId := some d })) } rid := rfl
  rw [hswap, getRide_updateRide st rid rid (fun x =>
        { x with status := some RideStatus.accepted, driverId := some d }) (fun _ => rfl), h1]
  simp [hrid']

/-- Claim C3 amended: at creation a ride's `driverId` is exactly the request
payload's `driverId` field (unset only when the payload omits it, as the
spec's CreateRide signature does); a successful `acceptRide` on a `requested`
ride sets it to the accepting driver; and every operation other than
`rideRequested` and `acceptRide` preserves `driverId`.  Immutability of the
assignment fails only through `rideRequested` replays, which rebuild the ride
and allow a different driver to accept. -/
theorem C3_amended_driverId_discipline :
    (∀ (o : Op) (st : ServerState) (rid : String) (r : Ride),
        writesDriverId o = false → getRide st rid = some r →
        ∃ r', getRide (step st o).2 rid = some r' ∧ r'.driverId = r.driverId) ∧
    (∀ (st : ServerState) (p : RidePayload) (now : Nat) (rid uid : String),
        p.rideId = some rid → p.userId = some uid →
        (getRide (rideRequested st p now).2 rid).map Ride.driverId = some p.driverId) ∧
    (∀ (st : ServerState) (rid d : String) (r : Ride),
        getRide st rid = some r → r.status = some RideStatus.requested →
        st.rideLocks.contains rid = false →
        getRide (acceptRide st rid d none).2 rid
          = some { r with status := some RideStatus.accepted, driverId := some d }) := by
  refine ⟨?_, ?_, ?_⟩
  · intro o st rid r ho hg
    cases o with
    | rideRequested p now => simp [writesDriverId] at ho
    | acceptRide rid1 d loc => simp [writesDriverId] at ho
    | driverArrived rid1 =>
        show ∃ r', getRide (driverArrived st rid1).2 rid = some r' ∧ r'.driverId = r.driverId
        unfold driverArrived
        repeat' split
        all_goals first
          | exact ⟨r, hg, rfl⟩
          | (refine driverId_preserved_updateRide st.rides rid1 rid ?_ ?_ ?_ r hg <;>
              intro x <;> rfl)
    | startRide rid1 =>
        show ∃ r', getRide (startRide st rid1).2 rid = some r' ∧ r'.driverId = r.driverId
        unfold startRide
        repeat' split
        all_goals first
          | exact ⟨r, hg, rfl⟩
          | (refine driverId_preserved_updateRide st.rides rid1 rid ?_ ?_ ?_ r hg <;>
              intro x <;> rfl)
    | completeDestination rid1 =>
        show ∃ r', getRide (completeDestination st rid1).2 rid = some r' ∧ r'.driverId = r.driverId
        unfold completeDestination
        repeat' split
        all_goals dsimp only
        all_goals repeat' split
        all_goals first
          | exact ⟨r, hg, rfl⟩
          | (refine driverId_preserved_updateRide st.rides rid1 rid ?_ ?_ ?_ r hg <;>
              intro x <;> rfl)
    | cancelRide rid1 =>
        show ∃ r', getRide (cancelRide st rid1).2 rid = some r' ∧ r'.driverId = r.driverId
        unfold cancelRide
        repeat' split
        all_goals first
          | exact ⟨r, hg, rfl⟩
          | (refine driverId_preserved_updateRide st.rides rid1 rid ?_ ?_ ?_ r hg <;>
              intro x <;> rfl)
    | updateLocation rid1 lat lng now =>
        show ∃ r', getRide (updateLocation st rid1 lat lng now).2 rid = some r' ∧ r'.driverId = r.driverId
        unfold updateLocation
        repeat' split
        all_goals first
          | exact ⟨r, hg, rfl⟩
          | (refine driverId_preserved_updateRide st.rides rid1 rid ?_ ?_ ?_ r hg <;>
              intro x <;> rfl)
    | timerFire rid1 =>
        show ∃ r', getRide (timerFire st rid1).2 rid = some r' ∧ r'.driverId = r.driverId
        unfold timerFire
        repeat' split
        all_goals exact ⟨r, hg, rfl⟩
    | registerDriver d s =>
        show ∃ r', getRide (registerDriver st d s).2 rid = some r' ∧ r'.driverId = r.driverId
        unfold registerDriver
        repeat' split
        all_goals exact ⟨r, hg, rfl⟩
    | driverOnline d =>
        exact ⟨r, hg, rfl⟩
    | driverOffline d =>
        exact ⟨r, hg, rfl⟩
  · intro st p now rid uid h1 h2
    rw [(rideRequested_valid st p now rid uid h1 h2).2]
    simp [buildRide_driverId]
  · intro st rid d r hgr hs hl
    exact getRide_acceptRide_success st rid d r hgr hs hl

/-- Witness for the C3 amended theorem, at concrete states: cancelling the
accepted ride `r1` preserves its `driverId`; a fresh valid request stores the
payload's (absent) `driverId`; accepting the requested ride `r1` assigns
`d1`. -/
theorem C3_amended_driverId_discipline_witness :
    (∃ r', getRide (step acceptedState (Op.cancelRide "r1")).2 "r1" = some r'
        ∧ r'.driverId = acceptedRide.driverId) ∧
    (getRide (rideRequested initState (mkPayload "r1" "u1" (some [])) 10).2 "r1").map
        Ride.driverId = some (mkPayload "r1" "u1" (some [])).driverId ∧
    getRide (acceptRide oneRequestedState "r1" "d1" none).2 "r1"
      = some { oneRequestedRide with status := some RideStatus.accepted,
                                     driverId := some "d1" } :=
  ⟨C3_amended_driverId_discipline.1 (Op.cancelRide "r1") acceptedState "r1" acceptedRide
      rfl (by decide),
   C3_amended_driverId_discipline.2.1 initState (mkPayload "r1" "u1" (some [])) 10 "r1" "u1"
      rfl rfl,
   C3_amended_driverId_discipline.2.2 oneRequestedState "r1" "d1" oneRequestedRide
      (by decide) rfl (by decide)⟩

/-- Claim C4 counterexample: replaying the ride request over the `accepted`
ride `r1` is not rejected — all three events succeed and the ride's status
moves backwards from `accepted` to `requested`, an edge outside the state
machine. -/
theorem C4_counterexample_backward_edge :
    (runResults initState (hijackTrace.take 3)).1
      = [Result.success, Result.success, Result.success] ∧
    (getRide (run initState (hijackTrace.take 2)) "r1").map Ride.status
      = some (some RideStatus.accepted) ∧
    (getRide (run initState (hijackTrace.take 3)) "r1").map Ride.status
      = some (some RideStatus.requested) := by
  exact ⟨by decide, by decide, by decide⟩

/-- Claim C4 amended: the three status-advance handlers are guarded exactly
as the state machine requires — `driverArrived` fails unless the status is
`accepted`, `startRide` unless `driverArrived`, `completeDestination` unless
`inProgress`, each leaving the state unchanged — but `cancelRide` is rejected
only when the ride is missing or `completed` (cancelling an already-cancelled
ride succeeds again) and `rideRequested` is not guarded at all, overwriting
any existing ride back to `requested`. -/
theorem C4_amended_state_guards (st : ServerState) (rid : String) (r : Ride)
    (hg : getRide st rid = some r) :
    (r.status ≠ some RideStatus.accepted →
        driverArrived st rid = (Result.failure "Invalid ride state", st)) ∧
    (r.status ≠ some RideStatus.driverArrived →
        startRide st rid = (Result.failure "Invalid ride state", st)) ∧
    (r.status ≠ some RideStatus.inProgress →
        completeDestination st rid = (Result.failure "Invalid ride state", st)) ∧
    (r.status = some RideStatus.completed →
        cancelRide st rid = (Result.failure "Ride not found or already completed", st)) ∧
    (r.status ≠ some RideStatus.completed →
        (cancelRide st rid).1 = Result.success) := by
  refine ⟨?_, ?_, ?_, ?_, ?_⟩
  · intro h
    have hb : (r.status == some RideStatus.accepted) = false := beq_eq_false_iff_ne.mpr h
    unfold driverArrived
    simp [hg, hb]
  · intro h
    have hb : (r.status == some RideStatus.driverArrived) = false := beq_eq_false_iff_ne.mpr h
    unfold startRide
    simp [hg, hb]
  · intro h
    have hb : (r.status == some RideStatus.inProgress) = false := beq_eq_false_iff_ne.mpr h
    unfold completeDestination
    simp [hg, hb]
  · intro h
    unfold cancelRide
    simp [hg, h]
  · intro h
    have hb : (r.status == some RideStatus.completed) = false := beq_eq_false_iff_ne.mpr h
    unfold cancelRide
    simp [hg, hb]

/-- Witness for the C4 amended theorem at the concrete `requested` ride `r1`:
arrival, start and destination-completion are all rejected, while cancel
succeeds. -/
theorem C4_amended_state_guards_witness :
    driverArrived oneRequestedState "r1" = (Result.failure "Invalid ride state", oneRequestedState) ∧
    startRide oneRequestedState "r1" = (Result.failure "Invalid ride state", oneRequestedState) ∧
    completeDestination oneRequestedState "r1"
      = (Result.failure "Invalid ride state", oneRequestedState) ∧
    (cancelRide oneRequestedState "r1").1 = Result.success := by
  have h := C4_amended_state_guards oneRequestedState "r1" oneRequestedRide (by decide)
  exact ⟨h.1 (by decide), h.2.1 (by decide), h.2.2.1 (by decide), h.2.2.2.2 (by decide)⟩

/-- Request ride `r1`, then cancel it twice. -/
def doubleCancelTrace : List Op :=
  [Op.rideRequested (mkPayload "r1" "u1" (some [])) 10,
   Op.cancelRide "r1", Op.cancelRide "r1"]

/-- Claim C5 counterexample: the second cancel of the already-cancelled ride
`r1` returns success, not an AlreadyTerminal-style failure. -/
theorem C5_counterexample_second_cancel_succeeds :
    (runResults initState doubleCancelTrace).1
      = [Result.success, Result.success, Result.success] ∧
    (getRide (run initState doubleCancelTrace) "r1").map Ride.status
      = some (some RideStatus.cancelled) := by
  exact ⟨by decide, by decide⟩

/-- Claim C5 amended: `cancelRide` transitions any ride whose status is not
`completed` — including one already `cancelled` — to `cancelled`; it fails
(without mutation) exactly when the ride is missing or `completed`; replaying
the cancel twice still yields one `cancelled` ride, but the second call also
reports success instead of an AlreadyTerminal failure. -/
theorem C5_amended_cancel (st : ServerState) (rid rid2 : String) (r : Ride)
    (hg : getRide st rid = some r) :
    (r.status ≠ some RideStatus.completed →
        (cancelRide st rid).1 = Result.success ∧
        getRide (cancelRide st rid).2 rid
          = some { r with status := some RideStatus.cancelled }) ∧
    (r.status = some RideStatus.completed →
        cancelRide st rid = (Result.failure "Ride not found or already completed", st)) ∧
    (getRide st rid2 = none →
        cancelRide st rid2 = (Result.failure "Ride not found or already completed", st)) ∧
    ((runResults initState doubleCancelTrace).1.get? 2 = some Result.success ∧
     (getRide (run initState doubleCancelTrace) "r1").map Ride.status
       = some (some RideStatus.cancelled)) := by
  have hrid' : r.rideId = rid := by
    have hg' : st.rides.find? (fun x => x.rideId == rid) = some r := hg
    simpa using List.find?_some hg'
  refine ⟨?_, ?_, ?_, by decide, by decide⟩
  · intro h
    have hb : (r.status == some RideStatus.completed) = false := beq_eq_false_iff_ne.mpr h
    unfold cancelRide
    constructor
    · simp [hg, hb]
    · simp only [hg, hb, Bool.false_eq_true, if_false]
      have hswap : getRide
          { st with rides := (updateRide st.rides rid (fun x =>
              { x with status := some RideStatus.cancelled })),
                    rideTimers := st.rideTimers.erase rid,
                    rideLocks := st.rideLocks.erase rid } rid
          = getRide { st with rides := (updateRide st.rides rid (fun x =>
              { x with status := some RideStatus.cancelled })) } rid := rfl
      rw [hswap, getRide_updateRide st rid rid (fun x =>
            { x with status := some RideStatus.cancelled }) (fun _ => rfl), hg]
      simp [hrid']
  · intro h
    unfold cancelRide
    simp [hg, h]
  · intro h
    unfold cancelRide
    simp [h]

/-- Witness for the C5 amended theorem at concrete states: cancelling the
requested ride `r1` succeeds and stores `cancelled`; cancelling the unknown
ride `zz` fails. -/
theorem C5_amended_cancel_witness :
    ((cancelRide oneRequestedState "r1").1 = Result.success ∧
     getRide (cancelRide oneRequestedState "r1").2 "r1"
       = some { oneRequestedRide with status := some RideStatus.cancelled }) ∧
    cancelRide oneRequestedState "zz"
      = (Result.failure "Ride not found or already completed", oneRequestedState) := by
  have h := C5_amended_cancel oneRequestedState "r1" "zz" oneRequestedRide (by decide)
  exact ⟨h.1 (by decide), h.2.2.1 (by decide)⟩

/-- Register an online driver, request ride `r1` (arming the timer), then let
the timer fire. -/
def timerTrace : List Op :=
  [Op.registerDriver (some "d1") "s1",
   Op.rideRequested (mkPayload "r1" "u1" (some [])) 10,
   Op.timerFire "r1"]

/-- Claim C6 counterexample: the armed timer for the still-`requested` ride
`r1` fires, yet the ride is left `requested` — the callback neither checks the
status nor transitions the ride to any timed-out state (the code's status
enum has no `timedOut` at all); it only deletes the timer entry. -/
theorem C6_counterexample_fire_without_transition :
    (run initState (timerTrace.take 2)).rideTimers = ["r1"] ∧
    (runResults initState timerTrace).1.get? 2 = some Result.success ∧
    (run initState timerTrace).rideTimers = [] ∧
    (run initState timerTrace).rides = (run initState (timerTrace.take 2)).rides ∧
    (getRide (run initState timerTrace) "r1").map Ride.status
      = some (some RideStatus.requested) := by
  exact ⟨by decide, by decide, by decide, by decide, by decide⟩

theorem step_timers_nodup (o : Op) (st : ServerState) (h : st.rideTimers.Nodup) :
    ((step st o).2).rideTimers.Nodup := by
  cases o with
  | rideRequested p now =>
      show ((rideRequested st p now).2).rideTimers.Nodup
      unfold rideRequested
      cases hr : p.rideId with
      | none => exact h
      | some rid =>
          cases hu : p.userId with
          | none => exact h
          | some uid =>
              dsimp only
              split
              · next hc =>
                  rw [Bool.and_eq_true] at hc
                  have hnc : st.rideTimers.contains rid = false := by
                    have := hc.2
                    simp only [Bool.not_eq_true'] at this
                    exact this
                  have hmem : rid ∉ st.rideTimers := by
                    intro hm
                    rw [List.contains_eq_any_beq] at hnc
                    have : st.rideTimers.any (rid == ·) = true :=
                      List.any_eq_true.mpr ⟨rid, hm, by simp⟩
                    rw [this] at hnc
                    cases hnc
                  exact List.nodup_cons.mpr ⟨hmem, h⟩
              · exact h
  | acceptRide rid d loc =>
      show ((acceptRide st rid d loc).2).rideTimers.Nodup
      unfold acceptRide
      repeat' split
      all_goals dsimp only
      all_goals repeat' split
      all_goals first
        | exact h
        | exact h.erase rid
  | driverArrived rid =>
      show ((driverArrived st rid).2).rideTimers.Nodup
      unfold driverArrived
      repeat' split
      all_goals exact h
  | startRide rid =>
      show ((startRide st rid).2).rideTimers.Nodup
      unfold startRide
      repeat' split
      all_goals exact h
  | completeDestination rid =>
      show ((completeDestination st rid).2).rideTimers.Nodup
      unfold completeDestination
      repeat' split
      all_goals dsimp only
      all_goals repeat' split
      all_goals exact h
  | cancelRide rid =>
      show ((cancelRide st rid).2).rideTimers.Nodup
      unfold cancelRide
      repeat' split
      all_goals first
        | exact h
        | exact h.erase rid
  | updateLocation rid lat lng now =>
      show ((updateLocation st rid lat lng now).2).rideTimers.Nodup
      unfold updateLocation
      repeat' split
      all_goals exact h
  | timerFire rid =>
      show ((timerFire st rid).2).rideTimers.Nodup
      unfold timerFire
      repeat' split
      all_goals first
        | exact h
        | exact h.erase rid
  | registerDriver d s =>
      show ((registerDriver st d s).2).rideTimers.Nodup
      unfold registerDriver
      repeat' split
      all_goals exact h
  | driverOnline d => exact h
  | driverOffline d => exact h

/-- Claim C6 amended: the pending-request timer entry is removed by every
transition out of `requested` (successful acceptance or cancellation, via
`finalizeRide`), and an armed timer that fires succeeds exactly once — the
entry is deleted so a second fire attempt fails, and timer entries are
duplicate-free in every reachable state — but the expiry callback only
notifies candidates and deletes its entry: it performs no status check and no
transition, so the ride itself is left untouched (still `requested`). -/
theorem C6_amended_timer_discipline (st : ServerState) (rid d : String) (r : Ride) :
    (getRide st rid = some r → r.status = some RideStatus.requested →
        st.rideLocks.contains rid = false →
        ((acceptRide st rid d none).2).rideTimers = st.rideTimers.erase rid) ∧
    (getRide st rid = some r → r.status ≠ some RideStatus.completed →
        ((cancelRide st rid).2).rideTimers = st.rideTimers.erase rid) ∧
    (st.rideTimers.contains rid = true →
        (timerFire st rid).1 = Result.success ∧
        ((timerFire st rid).2).rideTimers = st.rideTimers.erase rid ∧
        ((timerFire st rid).2).rides = st.rides) ∧
    (st.rideTimers.Nodup → (timerFire (timerFire st rid).2 rid).1 ≠ Result.success) ∧
    (∀ ops : List Op, (run initState ops).rideTimers.Nodup) := by
  refine ⟨?_, ?_, ?_, ?_, ?_⟩
  · intro hg hst hl
    rw [acceptRide_success st rid d r hg hst hl]
  · intro hg hst
    have hb : (r.status == some RideStatus.completed) = false := beq_eq_false_iff_ne.mpr hst
    unfold cancelRide
    simp [hg, hb]
  · intro hc
    unfold timerFire
    rw [hc]
    exact ⟨rfl, rfl, rfl⟩
  · intro hnd
    unfold timerFire
    by_cases hc : rid ∈ st.rideTimers
    · have hmem : rid ∉ st.rideTimers.erase rid := hnd.not_mem_erase
      simp [hc, hmem]
    · simp [hc]
  · intro ops
    have hrun : ∀ (l : List Op) (s : ServerState), s.rideTimers.Nodup →
        (run s l).rideTimers.Nodup := by
      intro l
      induction l with
      | nil => intro s hs; exact hs
      | cons o rest ih =>
          intro s hs
          exact ih ((step s o).2) (step_timers_nodup o s hs)
    exact hrun ops initState List.nodup_nil

/-- Witness for the C6 amended theorem at the armed-timer state: accepting
removes the timer entry; the armed timer fires successfully with the rides
untouched; a second fire fails. -/
theorem C6_amended_timer_discipline_witness :
    ((acceptRide (run initState (timerTrace.take 2)) "r1" "d1" none).2).rideTimers
      = ((run initState (timerTrace.take 2)).rideTimers).erase "r1" ∧
    ((timerFire (run initState (timerTrace.take 2)) "r1").1 = Result.success ∧
     ((timerFire (run initState (timerTrace.take 2)) "r1").2).rideTimers
       = ((run initState (timerTrace.take 2)).rideTimers).erase "r1" ∧
     ((timerFire (run initState (timerTrace.take 2)) "r1").2).rides
       = (run initState (timerTrace.take 2)).rides) ∧
    (timerFire (timerFire (run initState (timerTrace.take 2)) "r1").2 "r1").1
      ≠ Result.success := by
  have h := C6_amended_timer_discipline (run initState (timerTrace.take 2)) "r1" "d1"
    { rideId := "r1", userId := "u1", driverId := none,
      status := some RideStatus.requested, driverLocation := none, pickupLocation := none,
      destinations := some [], currentIndex := some 0, createdAt := some 10 }
  exact ⟨h.1 (by decide) (by decide) (by decide), h.2.2.1 (by decide), h.2.2.2.1 (by decide)⟩

theorem status_preserved_updateRide (rs : List Ride) (rid1 rid : String) (f : Ride → Ride)
    (hf : ∀ x, (f x).rideId = x.rideId) (hs : ∀ x, (f x).status = x.status)
    (r : Ride) (hg : rs.find? (fun x => x.rideId == rid) = some r) :
    ∃ r', (updateRide rs rid1 f).find? (fun x => x.rideId == rid) = some r'
      ∧ r'.status = r.status := by
  rw [find?_updateRide rs rid1 rid f hf, hg]
  by_cases h : r.rideId = rid1
  · refine ⟨f r, ?_, hs r⟩
    simp [h]
  · refine ⟨r, ?_, rfl⟩
    simp [h]

end RideProcess

namespace ReconnectV2

/-- The hash of a ride that was cancelled (payload `"cpay"`) and then received
a stale driver-location update. -/
def cancelledHash : RideHash :=
  driverLocationUpdate (some (cancelUpdate (some emptyHash) "cpay" 5)) { lat := 1, lng := 2 } 6

/-- Claim C9 counterexample: on reconnect after a cancellation, the stored
last driver location is still replayed (after the cancellation event), so the
replay is not the cancellation event alone. -/
theorem C9_counterexample_location_replayed_after_cancel :
    cancelledHash.lastCancelled = some "cpay" ∧
    reconnectReplay (some cancelledHash)
      = [ReplayEvent.rideCancelled "cpay",
         ReplayEvent.rideDriverLocation { lat := 1, lng := 2 }] ∧
    reconnectReplay (some cancelledHash) ≠ [ReplayEvent.rideCancelled "cpay"] := by
  exact ⟨by decide, by decide, by decide⟩

/-- Claim C9 amended: when the ride was cancelled, the reconnect replay
starts with the cancellation event and suppresses the stale status and
original-request events — but a stored last driver location is still replayed
after the cancellation.  A stale driver-location update never resurrects a
status: the hash write touches only `lastDriverLocation`/`updatedAt`, and the
in-memory `updateLocation` handler never changes the ride's status either. -/
theorem C9_amended_cancellation_priority (h : RideHash) (c : String)
    (loc : RideProcess.Location) (now : Nat) :
    (h.lastCancelled = some c →
        (replayEvents h).head? = some (ReplayEvent.rideCancelled c) ∧
        (∀ s, ReplayEvent.rideStatus s ∉ replayEvents h) ∧
        (∀ a b t, ReplayEvent.rideRequestedReplay a b t ∉ replayEvents h) ∧
        (replayEvents h = [ReplayEvent.rideCancelled c] ∨
         ∃ l, replayEvents h
            = [ReplayEvent.rideCancelled c, ReplayEvent.rideDriverLocation l])) ∧
    ((driverLocationUpdate (some h) loc now).status = h.status ∧
     (driverLocationUpdate (some h) loc now).lastCancelled = h.lastCancelled) ∧
    (∀ (st : RideProcess.ServerState) (rid : String) (lat lng : Int) (tnow : Nat)
        (r : RideProcess.Ride),
        RideProcess.getRide st rid = some r →
        ∃ r', RideProcess.getRide (RideProcess.updateLocation st rid lat lng tnow).2 rid
            = some r' ∧ r'.status = r.status) := by
  refine ⟨?_, ⟨rfl, rfl⟩, ?_⟩
  · intro hc
    have hre : replayEvents h
        = [ReplayEvent.rideCancelled c] ++
          (match h.lastDriverLocation with
           | some l => [ReplayEvent.rideDriverLocation l]
           | none => []) := by
      unfold replayEvents
      rw [hc]
    cases hl : h.lastDriverLocation with
    | none =>
        rw [hl] at hre
        refine ⟨?_, ?_, ?_, Or.inl ?_⟩ <;> simp [hre]
    | some l =>
        rw [hl] at hre
        refine ⟨?_, ?_, ?_, Or.inr ⟨l, ?_⟩⟩ <;> simp [hre]
  · intro st rid lat lng tnow r hg
    show ∃ r', RideProcess.getRide (RideProcess.updateLocation st rid lat lng tnow).2 rid
        = some r' ∧ r'.status = r.status
    unfold RideProcess.updateLocation
    repeat' split
    all_goals first
      | exact ⟨r, hg, rfl⟩
      | (refine RideProcess.status_preserved_updateRide st.rides rid rid ?_ ?_ ?_ r hg <;>
          intro x <;> rfl)

/-- Witness for the C9 amended theorem at the concrete cancelled hash and a
concrete in-memory state. -/
theorem C9_amended_cancellation_priority_witness :
    (replayEvents cancelledHash).head? = some (ReplayEvent.rideCancelled "cpay") ∧
    (replayEvents cancelledHash = [ReplayEvent.rideCancelled "cpay"] ∨
     ∃ l, replayEvents cancelledHash
        = [ReplayEvent.rideCancelled "cpay", ReplayEvent.rideDriverLocation l]) ∧
    (driverLocationUpdate (some cancelledHash) { lat := 3, lng := 4 } 7).status
      = cancelledHash.status ∧
    (∃ r', RideProcess.getRide
        (RideProcess.updateLocation RideProcess.oneRequestedState "r1" 5 6 1000).2 "r1"
        = some r' ∧ r'.status = RideProcess.oneRequestedRide.status) := by
  have h9 := C9_amended_cancellation_priority cancelledHash "cpay" { lat := 3, lng := 4 } 7
  have h1 := h9.1 (by decide)
  exact ⟨h1.1, h1.2.2.2, h9.2.1.1,
    h9.2.2 RideProcess.oneRequestedState "r1" 5 6 1000 RideProcess.oneRequestedRide (by decide)⟩

end ReconnectV2
